import Mathlib

/-!
Verification development for the `roadmapper` diagram generator.

The orchestrator `generator/roadmap.py` is embedded shallowly below:
its mutable object state becomes a `Roadmap` record, each method becomes a
pure function returning the updated record together with the layout or draw
events it performs, and a raised Python exception is modelled by a
`Fault` value returned alongside the state as it stood when the exception
was raised (mutations performed before the raise are kept, later ones are
not).

The component modules (`title.py`, `footer.py`, `timeline.py`, `group.py`,
`marker.py`, `painter.py`) are consumed by the orchestrator but are not part
of the sources under verification; their behaviour is modelled from the
specification, and every such definition is marked `Modelled from the spec:`
in its doc comment.  No theorem below depends on the exact pixel numbers
those models produce, only on which fields get populated, in which order,
and by which operation.
-/

namespace Roadmapper

/-- Calendar date as carried by `datetime.date` / `datetime.datetime`
(only the date part is ever used by the orchestrator). -/
structure Date where
  year : Nat
  month : Nat
  day : Nat
deriving DecidableEq, Repr

/-- Gregorian leap-year rule used by `datetime` when validating a day. -/
def isLeapYear (y : Nat) : Bool :=
  y % 4 == 0 && (y % 100 != 0 || y % 400 == 0)

/-- Number of days in a month, as `datetime.date` validates it. -/
def daysInMonth (y m : Nat) : Nat :=
  if m == 2 then (if isLeapYear y then 29 else 28)
  else if m == 4 || m == 6 || m == 9 || m == 11 then 30
  else 31

/-- Numeric value of a decimal digit character, `none` on other characters. -/
def digit? (c : Char) : Option Nat :=
  if '0' ≤ c && c ≤ '9' then some (c.toNat - '0'.toNat) else none

/-- Month field of `strptime`'s format `%m`: the regular expression
alternation `1[0-2]|0[1-9]|[1-9]`, applied to the remaining characters.
Returns the month value and the unconsumed characters.  When two digits
follow, a two-digit alternative must match (a one-digit month would have to
be followed by the literal dash, which a digit is not). -/
def parseMonthField : List Char → Option (Nat × List Char)
  | c1 :: c2 :: rest =>
    match digit? c1, digit? c2 with
    | some a, some b =>
      if (a == 1 && b ≤ 2) || (a == 0 && 1 ≤ b) then some (a * 10 + b, rest)
      else none
    | some a, none => if 1 ≤ a then some (a, c2 :: rest) else none
    | none, _ => none
  | [c1] =>
    match digit? c1 with
    | some a => if 1 ≤ a then some (a, []) else none
    | none => none
  | [] => none

/-- Day field of `strptime`'s format `%d`: the regular expression
alternation `3[01]|[12][0-9]|0[1-9]|[1-9]`, which must consume the whole
remaining input (`strptime` rejects the string when the match ends before
the end of the input). -/
def parseDayField : List Char → Option Nat
  | [c1, c2] =>
    match digit? c1, digit? c2 with
    | some a, some b =>
      if (a == 3 && b ≤ 1) || a == 1 || a == 2 || (a == 0 && 1 ≤ b) then
        some (a * 10 + b)
      else none
    | _, _ => none
  | [c1] =>
    match digit? c1 with
    | some a => if 1 ≤ a then some a else none
    | none => none
  | _ => none

/-- The parse performed by `datetime.strptime(start, "%Y-%m-%d")`
(roadmap.py line 117): four digit year, dash, month per `%m`, dash, day per
`%d`, end of string, followed by `datetime`'s range validation of the
triple (year at least 1, day within the month). -/
def parseYMD (s : String) : Option Date :=
  match s.data with
  | c1 :: c2 :: c3 :: c4 :: '-' :: rest =>
    match digit? c1, digit? c2, digit? c3, digit? c4 with
    | some a, some b, some c, some d =>
      match parseMonthField rest with
      | some (m, '-' :: rest2) =>
        match parseDayField rest2 with
        | some dd =>
          let y := ((a * 10 + b) * 10 + c) * 10 + d
          if 1 ≤ y && dd ≤ daysInMonth y m then some ⟨y, m, dd⟩ else none
        | none => none
      | _ => none
    | _, _, _, _ => none
  | _ => none

/-- Successor day in the Gregorian calendar. -/
def Date.nextDay (d : Date) : Date :=
  if d.day < daysInMonth d.year d.month then ⟨d.year, d.month, d.day + 1⟩
  else if d.month < 12 then ⟨d.year, d.month + 1, 1⟩
  else ⟨d.year + 1, 1, 1⟩

/-- Add a number of days to a date. -/
def Date.addDays : Date → Nat → Date
  | d, 0 => d
  | d, k + 1 => d.nextDay.addDays k

/-- Add a number of months to a date, keeping the day-of-month
(the granularity used for period boundaries by the timeline model). -/
def Date.addMonths (d : Date) (k : Nat) : Date :=
  let t := d.month - 1 + k
  ⟨d.year + t / 12, t % 12 + 1, d.day⟩

/-- Total order on dates via the decimal key YYYYMMDD. -/
def Date.key (d : Date) : Nat :=
  d.year * 10000 + d.month * 100 + d.day

/-- Boolean date comparison. -/
def Date.le (a b : Date) : Bool := a.key ≤ b.key

/-- Modelled from the spec: `generator/painter.py` is not under src/.
The canvas surface: width, height, output path, background colour, plus the
last consumed vertical offset that layout calls advance (the spec's
"last consumed vertical offset"). -/
structure Painter where
  width : Int
  height : Int
  path : String
  background_colour : String
  last_drawn_y : Int
deriving DecidableEq, Repr

/-- Modelled from the spec: `set_background_colour(colour)` from the
drawing-primitive contract. -/
def Painter.set_background_colour (p : Painter) (colour : String) : Painter :=
  { p with background_colour := colour }

/-- Horizontal margin between the canvas edge and the usable span. -/
def left_margin : Int := 30

/-- Vertical offset of the title from the canvas top. -/
def top_margin : Int := 30

/-- Fixed row height of a task box. -/
def task_height : Int := 20

/-- Vertical space taken by a group's header text. -/
def group_header_height : Int := 20

/-- Fixed padding below the last task of a group. -/
def group_bottom_padding : Int := 5

/-- Modelled from the spec: `generator/title.py` is not under src/.
A single fixed-position text block anchored to the canvas top; the
position field stays `none` until `set_draw_position` runs. -/
structure Title where
  text : String
  font : String
  font_size : Int
  font_colour : String
  pos : Option (Int × Int) := none
deriving DecidableEq, Repr

/-- Modelled from the spec: Title.set_draw_position anchors the title at a
fixed offset from the canvas top and advances the consumed vertical
offset. -/
def Title.set_draw_position (t : Title) (p : Painter) : Title × Painter :=
  ({ t with pos := some (p.width / 2, top_margin) },
   { p with last_drawn_y := top_margin + t.font_size })

/-- Modelled from the spec: `generator/footer.py` is not under src/.
A single text block anchored below the diagram's final vertical extent;
geometry fields stay `none` until `set_draw_position` runs. -/
structure Footer where
  text : String
  font : String
  font_size : Int
  font_colour : String
  x : Option Int := none
  y : Option Int := none
  width : Option Int := none
  height : Option Int := none
deriving DecidableEq, Repr

/-- Modelled from the spec: Footer.set_draw_position anchors the footer
below the lowest consumed vertical offset (the orchestrator passes its own
`__last_y_pos` alongside the painter). -/
def Footer.set_draw_position (f : Footer) (p : Painter) (last_y_pos : Int) :
    Footer × Painter :=
  let base := max last_y_pos p.last_drawn_y
  ({ f with x := some (p.width / 2), y := some (base + 10),
            width := some (f.font_size * Int.ofNat f.text.length / 2),
            height := some f.font_size },
   { p with last_drawn_y := base + 10 + f.font_size })

/-- Timeline granularity modes from `generator/timelinemode.py`
(imported by the orchestrator; values per the spec's
day/week/month/quarter family). -/
inductive TimelineMode where
  | DAILY
  | WEEKLY
  | MONTHLY
  | QUARTERLY
  | HALF_YEARLY
  | YEARLY
deriving DecidableEq, Repr

/-- Start date of the i-th period box for a mode. -/
def advanceDate (mode : TimelineMode) (start : Date) (i : Nat) : Date :=
  match mode with
  | .DAILY => start.addDays i
  | .WEEKLY => start.addDays (7 * i)
  | .MONTHLY => start.addMonths i
  | .QUARTERLY => start.addMonths (3 * i)
  | .HALF_YEARLY => start.addMonths (6 * i)
  | .YEARLY => start.addMonths (12 * i)

/-- Human-readable label of a period box. -/
def dateLabel (d : Date) : String :=
  toString d.year ++ "-" ++ toString d.month ++ "-" ++ toString d.day

/-- One labeled period box along the horizontal axis, with the fields the
diagnostic dump prints (text, value, box, text anchor). -/
structure TimelineItem where
  text : String
  value : String
  box_x : Int
  box_y : Int
  box_width : Int
  box_height : Int
  text_x : Int
  text_y : Int
deriving DecidableEq, Repr

/-- Modelled from the spec: `generator/timeline.py` is not under src/.
Configuration plus the ordered period boxes; `timeline_items` is empty
until `set_draw_position` runs. -/
structure Timeline where
  mode : TimelineMode
  start : Date
  number_of_items : Int
  font : String
  font_size : Int
  font_colour : String
  fill_colour : String
  timeline_items : List TimelineItem := []
deriving DecidableEq, Repr

/-- Modelled from the spec: Timeline.set_draw_position partitions the
usable horizontal span into `number_of_items` equal-width labeled boxes and
advances the consumed vertical offset. -/
def Timeline.set_draw_position (tl : Timeline) (p : Painter) :
    Timeline × Painter :=
  let n := tl.number_of_items
  let usable := p.width - 2 * left_margin
  let item_width := if n ≤ 0 then 0 else usable / n
  let y0 := p.last_drawn_y + 10
  let items := (List.range n.toNat).map (fun i =>
    { text := dateLabel (advanceDate tl.mode tl.start i)
      value := toString i
      box_x := left_margin + Int.ofNat i * item_width
      box_y := y0
      box_width := item_width
      box_height := 20
      text_x := left_margin + Int.ofNat i * item_width + item_width / 2
      text_y := y0 + 10 : TimelineItem })
  ({ tl with timeline_items := items },
   { p with last_drawn_y := y0 + 20 })

/-- Modelled from the spec: the axis projection `date_to_x`.  The item
containing the date is located by comparing period boundaries and the date
is mapped to that item's left box edge; the intra-item linear interpolation
is coarsened to that boundary, since no theorem below inspects the
intra-item offset.  A date past every configured period degenerates to the
left margin. -/
def Timeline.date_to_x (tl : Timeline) (d : Date) : Int :=
  let n := tl.timeline_items.length
  let idx :=
    ((List.range n).filter
      (fun i => Date.le (advanceDate tl.mode tl.start (i + 1)) d)).length
  match tl.timeline_items.get? idx with
  | some it => it.box_x
  | none => left_margin

/-- A milestone: a labeled diamond at a single date, with the fields the
diagnostic dump prints.  Geometry fields stay `none` until the owning task
is laid out. -/
structure Milestone where
  text : String
  date : Date
  diamond_x : Option Int := none
  diamond_y : Option Int := none
  diamond_width : Int := 10
  diamond_height : Int := 10
  font_colour : String := "Red"
  fill_colour : String := "Red"
deriving DecidableEq, Repr

/-- A task: a labeled date interval with owned milestones and nested
parallel tasks.  Geometry fields stay `none` until the owning group is laid
out.  `Task` is an inductive because parallel tasks nest recursively. -/
inductive Task where
  | mk (text : String) (start : Date) (stop : Date)
       (box_x : Option Int) (box_y : Option Int)
       (box_width : Option Int) (box_height : Option Int)
       (milestones : List Milestone) (tasks : List Task)

/-- Label of a task. -/
def Task.text : Task → String
  | .mk t _ _ _ _ _ _ _ _ => t

/-- Start date of a task. -/
def Task.start : Task → Date
  | .mk _ s _ _ _ _ _ _ _ => s

/-- End date of a task. -/
def Task.stop : Task → Date
  | .mk _ _ e _ _ _ _ _ _ => e

/-- Milestones owned by a task. -/
def Task.milestones : Task → List Milestone
  | .mk _ _ _ _ _ _ _ ms _ => ms

/-- Parallel tasks nested under a task. -/
def Task.tasks : Task → List Task
  | .mk _ _ _ _ _ _ _ _ ts => ts

/-- Modelled from the spec: Milestone layout against the owning task's row:
diamond centre x from the axis projection, centre y at the vertical middle
of the task's row. -/
def Milestone.set_draw_position (m : Milestone) (tl : Timeline) (row_y : Int) :
    Milestone :=
  { m with diamond_x := some (tl.date_to_x m.date),
           diamond_y := some (row_y + task_height / 2) }

mutual

/-- Modelled from the spec: Task layout: box x and width from projecting
the date interval, box y at the given row origin, fixed row height; then
each milestone against this row and each parallel task immediately below,
recursively.  Returns the laid-out task and the first free y below it. -/
def Task.set_draw_position (t : Task) (tl : Timeline) (y : Int) : Task × Int :=
  match t with
  | .mk text start stop _ _ _ _ ms subs =>
    let bx := tl.date_to_x start
    let bw := tl.date_to_x stop - tl.date_to_x start
    let ms' := ms.map (fun m => m.set_draw_position tl y)
    let (subs', yEnd) := Task.layoutList subs tl (y + task_height)
    (.mk text start stop (some bx) (some y) (some bw) (some task_height)
       ms' subs', yEnd)

/-- Lay out a list of tasks at consecutive row origins, returning the first
free y below the last one. -/
def Task.layoutList : List Task → Timeline → Int → List Task × Int
  | [], _, y => ([], y)
  | t :: ts, tl, y =>
    let (t', y') := t.set_draw_position tl y
    let (ts', y'') := Task.layoutList ts tl y'
    (t' :: ts', y'')

end

/-- Modelled from the spec: `generator/group.py` is not under src/.
A labeled vertical stack of tasks; geometry fields stay `none` until
`set_draw_position` runs.  `layout_count` records how many times the layout
has been finalized (a modelling device for the exactly-once property). -/
structure Group where
  text : String
  font : String
  font_size : Int
  font_colour : String
  fill_colour : String
  text_alignment : String
  tasks : List Task := []
  box_x : Option Int := none
  box_y : Option Int := none
  box_width : Option Int := none
  box_height : Option Int := none
  layout_count : Nat := 0

/-- A freshly constructed group, as `Group(...)` builds it inside
`add_group` (roadmap.py lines 143-150): styling set, no tasks, no
geometry. -/
def Group.init (text font : String) (font_size : Int)
    (font_colour fill_colour text_alignment : String) : Group :=
  { text := text, font := font, font_size := font_size,
    font_colour := font_colour, fill_colour := fill_colour,
    text_alignment := text_alignment }

/-- Modelled from the spec: Group layout: box spans the usable width,
starts at the current consumed vertical offset, stacks its tasks below the
header, and the height is header + task heights + bottom padding.
Advances the painter's consumed vertical offset past the group. -/
def Group.set_draw_position (g : Group) (p : Painter) (tl : Timeline) :
    Group × Painter :=
  let y0 := p.last_drawn_y
  let (tasks', yEnd) := Task.layoutList g.tasks tl (y0 + group_header_height)
  ({ g with tasks := tasks',
            box_x := some left_margin,
            box_y := some y0,
            box_width := some (p.width - 2 * left_margin),
            box_height := some (yEnd - y0 + group_bottom_padding),
            layout_count := g.layout_count + 1 },
   { p with last_drawn_y := yEnd + group_bottom_padding })

/-- Modelled from the spec: `generator/marker.py` is not under src/.
The current-date marker: label styling, line styling, and the two
separately computed geometries — label position (first phase) and line
position (second phase) — each `none` until its phase runs. -/
structure Marker where
  font : String
  font_size : Int
  font_colour : String
  line_colour : String
  line_width : Int
  line_style : String
  label_x : Option Int := none
  label_y : Option Int := none
  line_x : Option Int := none
  line_y_top : Option Int := none
  line_y_bottom : Option Int := none
deriving DecidableEq, Repr

/-- Modelled from the spec: first marker phase, `set_label_draw_position`:
places the label at the timeline's top edge, x from projecting the current
date. -/
def Marker.set_label_draw_position (m : Marker) (p : Painter) (tl : Timeline)
    (today : Date) : Marker :=
  { m with label_x := some (tl.date_to_x today),
           label_y := some p.last_drawn_y }

/-- A null-reference-style fault (`AttributeError` on `None`), a date-parse
failure (`ValueError`), or a wrong-argument-type failure (`TypeError`). -/
inductive Fault where
  | nullRef
  | valueError
  | typeError
deriving DecidableEq, Repr

/-- Modelled from the spec: second marker phase,
`set_line_draw_position`: the vertical line reuses the label's projected x
and spans from the timeline's bottom edge down to the last consumed
vertical offset.  Running it before the first phase dereferences the absent
label geometry and faults. -/
def Marker.set_line_draw_position (m : Marker) (p : Painter) :
    Marker × Option Fault :=
  match m.label_x, m.label_y with
  | some x, some ly =>
    ({ m with line_x := some x,
              line_y_top := some (ly + 30),
              line_y_bottom := some p.last_drawn_y }, none)
  | _, _ => (m, some .nullRef)

/-- One layout action performed by an orchestrator call, in the order the
call performs them. -/
inductive LayoutEvent where
  | titleLayout
  | timelineLayout
  | markerLabelLayout
  | markerLineLayout
  | footerLayout
deriving DecidableEq, Repr

/-- One component-level draw emission of `Roadmap.draw`, in emission
order; a group event carries the group's label. -/
inductive DrawEvent where
  | titleEv
  | timelineEv
  | groupEv (text : String)
  | markerEv
  | footerEv
deriving DecidableEq, Repr

/-- The `start` argument of `set_timeline`: either a string (the normal
call) or a datetime (the value the Python default argument holds, since it
is built by `strptime` at function-definition time). -/
inductive StartArg where
  | str (s : String)
  | dt (d : Date)
deriving DecidableEq, Repr

/-- Modelled from the spec: the default `start` argument of `set_timeline`
is a datetime computed once from the clock when the module loads
(roadmap.py lines 108-110), so a call that omits `start` passes a datetime,
not a string. -/
def set_timeline_default_start (module_load_today : Date) : StartArg :=
  StartArg.dt module_load_today

/-- The orchestrator state of `generator/roadmap.py`: the dataclass fields
`width`, `height`, `show_current_date_marker` (all three are constructor
parameters), the component slots that start out as `None`, and the
`__post_init__` state (painter, groups, last y position, mode).  `today` is
the current date read from the clock, threaded explicitly. -/
structure Roadmap where
  width : Int
  height : Int
  show_current_date_marker : Bool
  title : Option Title
  timeline : Option Timeline
  footer : Option Footer
  marker : Option Marker
  groups : List Group
  painter : Painter
  last_y_pos : Int
  mode : TimelineMode
  today : Date

/-- `Roadmap(width, height, show_current_date_marker)` followed by
`__post_init__` (roadmap.py lines 37-53): the three dataclass parameters
are stored, the component slots are `None`, the painter is created from
width and height with a white background, groups start empty. -/
def Roadmap.init (width height : Int) (show_current_date_marker : Bool)
    (today : Date) : Roadmap :=
  { width := width, height := height,
    show_current_date_marker := show_current_date_marker,
    title := none, timeline := none, footer := none, marker := none,
    groups := [],
    painter := (Painter.mk width height "test.png" "" 0).set_background_colour
      "White",
    last_y_pos := 0, mode := TimelineMode.MONTHLY, today := today }

/-- `Roadmap.set_marker` (roadmap.py lines 55-72): builds the Marker from
the styling arguments and sets the enabled flag. -/
def Roadmap.set_marker (r : Roadmap) (label_text_font label_text_colour : String)
    (label_text_size : Int) (line_colour : String) (line_width : Int)
    (line_style : String) : Roadmap :=
  { r with
    marker := some
      { font := label_text_font, font_size := label_text_size,
        font_colour := label_text_colour, line_colour := line_colour,
        line_width := line_width, line_style := line_style },
    show_current_date_marker := true }

/-- `Roadmap.set_title` (roadmap.py lines 74-86): builds the Title and
immediately computes its draw position. -/
def Roadmap.set_title (r : Roadmap) (text font : String) (font_size : Int)
    (font_colour : String) : Roadmap × List LayoutEvent :=
  let t0 : Title := { text := text, font := font, font_size := font_size,
                      font_colour := font_colour }
  let (t, p') := t0.set_draw_position r.painter
  ({ r with title := some t, painter := p' }, [LayoutEvent.titleLayout])

/-- `Roadmap.set_footer` (roadmap.py lines 88-103): when the marker flag is
set, first finalizes the marker line position (dereferencing the marker
slot — a `None` marker faults here), then builds the Footer and computes
its draw position.  Returns the state when the call returns or raises, the
layout events performed, and the fault if one was raised. -/
def Roadmap.set_footer (r : Roadmap) (text font : String) (font_size : Int)
    (font_colour : String) : Roadmap × List LayoutEvent × Option Fault :=
  if r.show_current_date_marker then
    match r.marker with
    | none => (r, [], some .nullRef)
    | some m =>
      match m.set_line_draw_position r.painter with
      | (_, some f) => (r, [], some f)
      | (m', none) =>
        let f0 : Footer := { text := text, font := font,
                             font_size := font_size,
                             font_colour := font_colour }
        let (f, p') := f0.set_draw_position r.painter r.last_y_pos
        ({ r with marker := some m', footer := some f, painter := p' },
         [LayoutEvent.markerLineLayout, LayoutEvent.footerLayout], none)
  else
    let f0 : Footer := { text := text, font := font, font_size := font_size,
                         font_colour := font_colour }
    let (f, p') := f0.set_draw_position r.painter r.last_y_pos
    ({ r with footer := some f, painter := p' },
     [LayoutEvent.footerLayout], none)

/-- `Roadmap.set_timeline` (roadmap.py lines 105-130): parses `start` with
`strptime("%Y-%m-%d")` — a datetime argument (the default) is a
`TypeError`, a malformed string a `ValueError`, both raised before any
state changes — then builds the Timeline, computes its draw position, and,
when the marker flag is set, finalizes the marker label position
(dereferencing the marker slot — a `None` marker faults after the timeline
has already been stored). -/
def Roadmap.set_timeline (r : Roadmap) (mode : TimelineMode) (start : StartArg)
    (number_of_items : Int) (font : String) (font_size : Int)
    (font_colour fill_colour : String) :
    Roadmap × List LayoutEvent × Option Fault :=
  match start with
  | .dt _ => (r, [], some .typeError)
  | .str s =>
    match parseYMD s with
    | none => (r, [], some .valueError)
    | some start_date =>
      let tl0 : Timeline := { mode := mode, start := start_date,
                              number_of_items := number_of_items,
                              font := font, font_size := font_size,
                              font_colour := font_colour,
                              fill_colour := fill_colour }
      let (tl, p') := tl0.set_draw_position r.painter
      if r.show_current_date_marker then
        match r.marker with
        | none =>
          ({ r with timeline := some tl, painter := p' },
           [LayoutEvent.timelineLayout], some .nullRef)
        | some m =>
          let m' := m.set_label_draw_position p' tl r.today
          ({ r with timeline := some tl, marker := some m', painter := p' },
           [LayoutEvent.timelineLayout, LayoutEvent.markerLabelLayout], none)
      else
        ({ r with timeline := some tl, painter := p' },
         [LayoutEvent.timelineLayout], none)

/-- `Roadmap.add_group` (roadmap.py lines 132-155), the scoped-acquisition
context manager.  The caller's with-block is the function `body`: it
receives the freshly built group (already appended to the roadmap's list in
Python) and returns the group as populated when the block finishes or
raises, together with the exception it raised, if any.  The `finally`
clause then finalizes the group's layout against the current timeline; with
no timeline set that dereference faults, leaving the group appended but not
laid out, and the fault supersedes any body exception. -/
def Roadmap.add_group {ε : Type} (r : Roadmap) (text font : String)
    (font_size : Int) (font_colour fill_colour text_alignment : String)
    (body : Group → Group × Option ε) :
    Roadmap × Option (Sum Fault ε) :=
  let g0 := Group.init text font font_size font_colour fill_colour
    text_alignment
  let (g1, exc) := body g0
  match r.timeline with
  | none =>
    ({ r with groups := r.groups ++ [g1] }, some (Sum.inl Fault.nullRef))
  | some tl =>
    let (g2, p') := g1.set_draw_position r.painter tl
    ({ r with groups := r.groups ++ [g2], painter := p' },
     exc.map Sum.inr)

/-- `Roadmap.draw` (roadmap.py lines 157-163): emits the title, the
timeline, every group in list order, the marker, and the footer, in exactly
that order, dereferencing each component slot unconditionally; a `None`
slot faults at its position in the sequence, keeping the events emitted
before it. -/
def Roadmap.draw (r : Roadmap) : List DrawEvent × Option Fault :=
  match r.title with
  | none => ([], some .nullRef)
  | some _ =>
    match r.timeline with
    | none => ([DrawEvent.titleEv], some .nullRef)
    | some _ =>
      let gevs := r.groups.map (fun g => DrawEvent.groupEv g.text)
      match r.marker with
      | none =>
        (DrawEvent.titleEv :: DrawEvent.timelineEv :: gevs, some .nullRef)
      | some _ =>
        match r.footer with
        | none =>
          (DrawEvent.titleEv :: DrawEvent.timelineEv ::
            (gevs ++ [DrawEvent.markerEv]), some .nullRef)
        | some _ =>
          (DrawEvent.titleEv :: DrawEvent.timelineEv ::
            (gevs ++ [DrawEvent.markerEv, DrawEvent.footerEv]), none)

/-- `Roadmap.save` (roadmap.py lines 165-166): persists the painter surface
to its output path; no orchestrator state changes. -/
def Roadmap.save (r : Roadmap) : Roadmap := r

/-- One line of the diagnostic text dump, tagged by which part of the
geometry tree it renders and carrying the rendered label. -/
inductive PrintLine where
  | titleLine (text : String)
  | timelineHeader
  | timelineItemLine (text : String)
  | groupLine (text : String)
  | taskLine (text : String)
  | milestoneLine (text : String)
  | parallelTaskLine (text : String)
  | parallelMilestoneLine (text : String)
  | footerLine (text : String)
deriving DecidableEq, Repr

/-- Whether a dump line belongs to the groups section (a group, task,
milestone, or parallel-task line). -/
def PrintLine.isGroupSection : PrintLine → Bool
  | .groupLine _ => true
  | .taskLine _ => true
  | .milestoneLine _ => true
  | .parallelTaskLine _ => true
  | .parallelMilestoneLine _ => true
  | _ => false

/-- Dump lines of one task: the task line, its milestone lines, then each
parallel task's line followed by that parallel task's milestone lines
(roadmap.py lines 190-214 print exactly these two levels). -/
def printTask (t : Task) : List PrintLine :=
  PrintLine.taskLine t.text ::
    (t.milestones.map (fun m => PrintLine.milestoneLine m.text) ++
     (t.tasks.map (fun pt =>
        PrintLine.parallelTaskLine pt.text ::
          pt.milestones.map
            (fun m => PrintLine.parallelMilestoneLine m.text))).flatten)

/-- Dump lines of one group: the group line followed by its tasks' lines
(roadmap.py lines 185-214). -/
def printGroup (g : Group) : List PrintLine :=
  PrintLine.groupLine g.text :: (g.tasks.map printTask).flatten

/-- `Roadmap.print_roadmap` (roadmap.py lines 168-220): renders the
requested sections in the fixed order title, timeline, groups, footer.
Each requested section dereferences its component slot; a `None` slot
faults, keeping the lines printed before it.  The timeline section prints a
header line and one line per timeline item; the groups section iterates the
group list and prints nothing when it is empty. -/
def Roadmap.print_roadmap (r : Roadmap) (print_area : String) :
    List PrintLine × Option Fault :=
  let wantTitle := print_area == "all" || print_area == "title"
  let wantTimeline := print_area == "all" || print_area == "timeline"
  let wantGroups := print_area == "all" || print_area == "groups"
  let wantFooter := print_area == "all" || print_area == "footer"
  let titleOut : List PrintLine × Option Fault :=
    if wantTitle then
      match r.title with
      | none => ([], some .nullRef)
      | some t => ([PrintLine.titleLine t.text], none)
    else ([], none)
  match titleOut with
  | (l1, some f) => (l1, some f)
  | (l1, none) =>
    let timelineOut : List PrintLine × Option Fault :=
      if wantTimeline then
        match r.timeline with
        | none => ([], some .nullRef)
        | some tl =>
          (PrintLine.timelineHeader ::
            tl.timeline_items.map (fun it => PrintLine.timelineItemLine it.text),
           none)
      else ([], none)
    match timelineOut with
    | (l2, some f) => (l1 ++ l2, some f)
    | (l2, none) =>
      let l3 := if wantGroups then (r.groups.map printGroup).flatten else []
      let footerOut : List PrintLine × Option Fault :=
        if wantFooter then
          match r.footer with
          | none => ([], some .nullRef)
          | some f => ([PrintLine.footerLine f.text], none)
        else ([], none)
      match footerOut with
      | (l4, some f) => (l1 ++ l2 ++ l3 ++ l4, some f)
      | (l4, none) => (l1 ++ l2 ++ l3 ++ l4, none)

/-- One public orchestrator call together with its arguments; the
with-block of an `add_group` is carried as the body function. -/
inductive Op (ε : Type) where
  | set_marker (label_text_font label_text_colour : String)
      (label_text_size : Int) (line_colour : String) (line_width : Int)
      (line_style : String)
  | set_title (text font : String) (font_size : Int) (font_colour : String)
  | set_timeline (mode : TimelineMode) (start : StartArg)
      (number_of_items : Int) (font : String) (font_size : Int)
      (font_colour fill_colour : String)
  | add_group (text font : String) (font_size : Int)
      (font_colour fill_colour text_alignment : String)
      (body : Group → Group × Option ε)
  | set_footer (text font : String) (font_size : Int) (font_colour : String)
  | draw
  | print_roadmap (print_area : String)
  | save

/-- Effect of one call on the orchestrator state: the state when the call
returns or raises, and the fault or caller exception it raised, if any. -/
def Roadmap.step {ε : Type} (r : Roadmap) : Op ε →
    Roadmap × Option (Sum Fault ε)
  | .set_marker a b c d e f => (r.set_marker a b c d e f, none)
  | .set_title t f s c => ((r.set_title t f s c).1, none)
  | .set_timeline m st n f s c fill =>
    let (r', _, e) := r.set_timeline m st n f s c fill
    (r', e.map Sum.inl)
  | .add_group t f s c fill al body => r.add_group t f s c fill al body
  | .set_footer t f s c =>
    let (r', _, e) := r.set_footer t f s c
    (r', e.map Sum.inl)
  | .draw => (r, (r.draw).2.map Sum.inl)
  | .print_roadmap area => (r, (r.print_roadmap area).2.map Sum.inl)
  | .save => (r.save, none)

/-- Run a sequence of calls, stopping at the first fault or uncaught
exception. -/
def Roadmap.run {ε : Type} : Roadmap → List (Op ε) →
    Roadmap × Option (Sum Fault ε)
  | r, [] => (r, none)
  | r, op :: ops =>
    match r.step op with
    | (r', some e) => (r', some e)
    | (r', none) => Roadmap.run r' ops

/-- A sample current date used by concrete instances. -/
def d0 : Date := ⟨2024, 1, 1⟩

/-- A concrete laid-out title. -/
def wTitle : Title :=
  { text := "Launch Plan", font := "Arial", font_size := 18,
    font_colour := "Black", pos := some (600, 30) }

/-- A concrete timeline item. -/
def wItem0 : TimelineItem :=
  { text := "2024-1-1", value := "0", box_x := 30, box_y := 58,
    box_width := 570, box_height := 20, text_x := 315, text_y := 68 }

/-- A second concrete timeline item. -/
def wItem1 : TimelineItem :=
  { text := "2024-2-1", value := "1", box_x := 600, box_y := 58,
    box_width := 570, box_height := 20, text_x := 885, text_y := 68 }

/-- A concrete laid-out timeline with two monthly items. -/
def wTimeline : Timeline :=
  { mode := .MONTHLY, start := d0, number_of_items := 2, font := "Arial",
    font_size := 10, font_colour := "Black", fill_colour := "lightgrey",
    timeline_items := [wItem0, wItem1] }

/-- A concrete laid-out footer. -/
def wFooter : Footer :=
  { text := "Generated", font := "Arial", font_size := 18,
    font_colour := "Black", x := some 600, y := some 500,
    width := some 81, height := some 18 }

/-- A concrete marker whose label phase has run. -/
def wMarker : Marker :=
  { font := "Arial", font_size := 10, font_colour := "Black",
    line_colour := "Black", line_width := 2, line_style := "dashed",
    label_x := some 120, label_y := some 48 }

/-- A concrete laid-out group with no tasks. -/
def wGroup : Group :=
  { text := "Stream 1", font := "Arial", font_size := 10,
    font_colour := "Black", fill_colour := "lightgrey",
    text_alignment := "centre", tasks := [], box_x := some 30,
    box_y := some 80, box_width := some 1140, box_height := some 25,
    layout_count := 1 }

/-- A concrete roadmap state on which every layout phase has run: title,
timeline, one group, marker (both phases pending the line), footer. -/
def wRoadmap : Roadmap :=
  { width := 1200, height := 600, show_current_date_marker := true,
    title := some wTitle, timeline := some wTimeline,
    footer := some wFooter, marker := some wMarker, groups := [wGroup],
    painter := { width := 1200, height := 600, path := "test.png",
                 background_colour := "White", last_drawn_y := 130 },
    last_y_pos := 0, mode := .MONTHLY, today := d0 }

/-- The same state with the marker never configured. -/
def wRoadmapNoMarker : Roadmap := { wRoadmap with marker := none }

/-- C1: on a roadmap whose title, timeline, marker and footer are all
present, `draw` emits exactly the fixed sequence: title, timeline, every
group in the order the group list holds them (insertion order), marker,
footer — and, `draw` being a function of the state, no other order is
possible. -/
theorem C1_draw_emits_fixed_order (r : Roadmap) (t : Title) (tl : Timeline)
    (m : Marker) (f : Footer) (ht : r.title = some t)
    (htl : r.timeline = some tl) (hm : r.marker = some m)
    (hf : r.footer = some f) :
    r.draw =
      (DrawEvent.titleEv :: DrawEvent.timelineEv ::
        (r.groups.map (fun g => DrawEvent.groupEv g.text) ++
         [DrawEvent.markerEv, DrawEvent.footerEv]), none) := by
  simp [Roadmap.draw, ht, htl, hm, hf]

/-- Witness for C1 at the concrete fully laid-out roadmap. -/
theorem C1_draw_emits_fixed_order_witness :
    wRoadmap.draw =
      ([DrawEvent.titleEv, DrawEvent.timelineEv, DrawEvent.groupEv "Stream 1",
        DrawEvent.markerEv, DrawEvent.footerEv], none) :=
  C1_draw_emits_fixed_order wRoadmap wTitle wTimeline wMarker wFooter
    rfl rfl rfl rfl

/-- C9: on a roadmap where the marker was never configured, `draw` faults
with a null reference even though title, timeline, groups and footer are
all laid out, because it dereferences the marker slot unconditionally
(after having emitted the title, timeline and group draws). -/
theorem C9_draw_faults_without_marker (r : Roadmap) (t : Title)
    (tl : Timeline) (f : Footer) (ht : r.title = some t)
    (htl : r.timeline = some tl) (_hf : r.footer = some f)
    (hm : r.marker = none) :
    r.draw =
      (DrawEvent.titleEv :: DrawEvent.timelineEv ::
        r.groups.map (fun g => DrawEvent.groupEv g.text),
       some Fault.nullRef) := by
  simp [Roadmap.draw, ht, htl, hm]

/-- Witness for C9 at the concrete roadmap with no marker. -/
theorem C9_draw_faults_without_marker_witness :
    wRoadmapNoMarker.draw =
      ([DrawEvent.titleEv, DrawEvent.timelineEv, DrawEvent.groupEv "Stream 1"],
       some Fault.nullRef) :=
  C9_draw_faults_without_marker wRoadmapNoMarker wTitle wTimeline wFooter
    rfl rfl rfl rfl

/-- C2: `add_group` builds the group, hands it to the caller's block, and
on scope exit — whether the block finished or raised — the group as
populated so far is appended to the group list and its layout is finalized
against the current timeline exactly once, any block exception propagating
afterwards.  `body` is the caller's block: it returns the group as
populated when the block finishes or raises, and the exception if it
raised one. -/
theorem C2_add_group_scoped_layout (ε : Type) (r : Roadmap) (tl : Timeline)
    (htl : r.timeline = some tl) (text font : String) (font_size : Int)
    (font_colour fill_colour text_alignment : String)
    (body : Group → Group × Option ε) (g1 : Group) (exc : Option ε)
    (hbody : body (Group.init text font font_size font_colour fill_colour
      text_alignment) = (g1, exc))
    (honce : g1.layout_count = 0) :
    r.add_group text font font_size font_colour fill_colour text_alignment
        body =
      ({ r with groups := r.groups ++ [(g1.set_draw_position r.painter tl).1],
                painter := (g1.set_draw_position r.painter tl).2 },
       exc.map Sum.inr) ∧
    (g1.set_draw_position r.painter tl).1.layout_count = 1 := by
  constructor
  · rcases hG : g1.set_draw_position r.painter tl with ⟨g2, p2⟩
    simp [Roadmap.add_group, hbody, htl, hG]
  · rcases hL : Task.layoutList g1.tasks tl
      (r.painter.last_drawn_y + group_header_height) with ⟨ts, ye⟩
    simp [Group.set_draw_position, hL, honce]

/-- Witness for C2 at the concrete roadmap, with a block that adds nothing
and raises no exception. -/
theorem C2_add_group_scoped_layout_witness :
    Roadmap.add_group (ε := Unit) wRoadmap "G" "Arial" 10 "Black"
        "lightgrey" "centre" (fun g => (g, none)) =
      ({ wRoadmap with
          groups := wRoadmap.groups ++
            [((Group.init "G" "Arial" 10 "Black" "lightgrey"
                "centre").set_draw_position wRoadmap.painter wTimeline).1],
          painter := ((Group.init "G" "Arial" 10 "Black" "lightgrey"
            "centre").set_draw_position wRoadmap.painter wTimeline).2 },
       none) ∧
    ((Group.init "G" "Arial" 10 "Black" "lightgrey"
        "centre").set_draw_position wRoadmap.painter
        wTimeline).1.layout_count = 1 :=
  C2_add_group_scoped_layout Unit wRoadmap wTimeline rfl "G" "Arial" 10
    "Black" "lightgrey" "centre" (fun g => (g, none))
    (Group.init "G" "Arial" 10 "Black" "lightgrey" "centre") none rfl rfl

/-- C4: the sequencing faults: `draw` before title, timeline and footer
have been set faults with a null reference, uncaught by the orchestrator
(`step` returns the very fault `draw` raised); `set_footer` with the
marker flag enabled but no marker configured faults with a null reference
before mutating anything; and `set_footer` with a marker whose label phase
never ran (no group/timeline layout reached it) likewise faults with a
null reference before mutating anything. -/
theorem C4_premature_calls_fault (r : Roadmap) :
    (r.title = none → r.timeline = none → r.footer = none →
      r.draw = ([], some Fault.nullRef) ∧
      Roadmap.step (ε := Unit) r Op.draw =
        (r, some (Sum.inl Fault.nullRef))) ∧
    (r.show_current_date_marker = true → r.marker = none →
      ∀ text font font_size font_colour,
        r.set_footer text font font_size font_colour =
          (r, [], some Fault.nullRef)) ∧
    (∀ m, r.show_current_date_marker = true → r.marker = some m →
      m.label_x = none →
      ∀ text font font_size font_colour,
        r.set_footer text font font_size font_colour =
          (r, [], some Fault.nullRef)) := by
  refine ⟨fun h1 _ _ => ⟨?_, ?_⟩, fun hflag hm text font fs fc => ?_,
    fun m hflag hm hl text font fs fc => ?_⟩
  · simp [Roadmap.draw, h1]
  · simp [Roadmap.step, Roadmap.draw, h1]
  · simp [Roadmap.set_footer, hflag, hm]
  · simp [Roadmap.set_footer, hflag, hm, Marker.set_line_draw_position, hl]

/-- A concrete marker whose label phase never ran. -/
def wMarkerNoLabel : Marker := { wMarker with label_x := none }

/-- A concrete roadmap whose marker's label phase never ran. -/
def wRoadmapNoLabel : Roadmap :=
  { wRoadmap with marker := some wMarkerNoLabel }

/-- Witness for C4: a freshly constructed roadmap with the flag forced on
(draw and footer fault with null references), and a state whose marker
label phase never ran (footer faults likewise). -/
theorem C4_premature_calls_fault_witness :
    (Roadmap.init 1200 600 true d0).draw = ([], some Fault.nullRef) ∧
    (Roadmap.init 1200 600 true d0).set_footer "F" "Arial" 18 "Black" =
      (Roadmap.init 1200 600 true d0, [], some Fault.nullRef) ∧
    wRoadmapNoLabel.set_footer "F" "Arial" 18 "Black" =
      (wRoadmapNoLabel, [], some Fault.nullRef) :=
  ⟨((C4_premature_calls_fault (Roadmap.init 1200 600 true d0)).1
      rfl rfl rfl).1,
   (C4_premature_calls_fault (Roadmap.init 1200 600 true d0)).2.1
      rfl rfl "F" "Arial" 18 "Black",
   (C4_premature_calls_fault wRoadmapNoLabel).2.2 wMarkerNoLabel
      rfl rfl rfl "F" "Arial" 18 "Black"⟩

/-- C5: `set_timeline` parses a string start date with the format
YYYY-MM-DD before building anything: a malformed string fails immediately
with a `ValueError`, the state unchanged and no timeline (not even a
partial one) created; a well-formed string yields a timeline built from
the parsed date. -/
theorem C5_start_date_parse (r : Roadmap) (mode : TimelineMode) (s : String)
    (n : Int) (font : String) (font_size : Int)
    (font_colour fill_colour : String) :
    (parseYMD s = none →
      r.set_timeline mode (.str s) n font font_size font_colour fill_colour =
        (r, [], some Fault.valueError)) ∧
    (∀ d, parseYMD s = some d →
      (r.set_timeline mode (.str s) n font font_size font_colour
          fill_colour).1.timeline =
        some (({ mode := mode, start := d, number_of_items := n,
                 font := font, font_size := font_size,
                 font_colour := font_colour, fill_colour := fill_colour } :
                Timeline).set_draw_position r.painter).1) := by
  constructor
  · intro hp
    simp [Roadmap.set_timeline, hp]
  · intro d hp
    rcases hT : Timeline.set_draw_position
      { mode := mode, start := d, number_of_items := n, font := font,
        font_size := font_size, font_colour := font_colour,
        fill_colour := fill_colour } r.painter with ⟨tl, p'⟩
    cases hflag : r.show_current_date_marker with
    | false => simp [Roadmap.set_timeline, hp, hT, hflag]
    | true =>
      cases hm : r.marker with
      | none => simp [Roadmap.set_timeline, hp, hT, hflag, hm]
      | some m => simp [Roadmap.set_timeline, hp, hT, hflag, hm]

/-- Witness for C5: a malformed month fails with `ValueError` leaving the
state untouched; a well-formed date builds the timeline from it. -/
theorem C5_start_date_parse_witness :
    wRoadmap.set_timeline .MONTHLY (.str "2024-13-01") 2 "Arial" 10 "Black"
      "lightgrey" = (wRoadmap, [], some Fault.valueError) ∧
    (wRoadmap.set_timeline .MONTHLY (.str "2024-01-01") 2 "Arial" 10 "Black"
        "lightgrey").1.timeline =
      some (({ mode := .MONTHLY, start := ⟨2024, 1, 1⟩, number_of_items := 2,
               font := "Arial", font_size := 10, font_colour := "Black",
               fill_colour := "lightgrey" } :
              Timeline).set_draw_position wRoadmap.painter).1 :=
  ⟨(C5_start_date_parse wRoadmap .MONTHLY "2024-13-01" 2 "Arial" 10 "Black"
      "lightgrey").1 rfl,
   (C5_start_date_parse wRoadmap .MONTHLY "2024-01-01" 2 "Arial" 10 "Black"
      "lightgrey").2 ⟨2024, 1, 1⟩ rfl⟩

/-- C10: the default start argument of `set_timeline` is a datetime (built
once at module load), and the body unconditionally re-parses the start as
a string, so a call with the defaulted start always fails with a
`TypeError`, and a call can only succeed when the start was explicitly
passed as a (well-formed) string. -/
theorem C10_default_start_type_fault (r : Roadmap) (mode : TimelineMode)
    (n : Int) (font : String) (font_size : Int)
    (font_colour fill_colour : String) :
    (∀ d, r.set_timeline mode (set_timeline_default_start d) n font
        font_size font_colour fill_colour = (r, [], some Fault.typeError)) ∧
    (∀ st, (r.set_timeline mode st n font font_size font_colour
        fill_colour).2.2 = none →
      ∃ s d, st = StartArg.str s ∧ parseYMD s = some d) := by
  constructor
  · intro d
    simp [Roadmap.set_timeline, set_timeline_default_start]
  · intro st h
    cases st with
    | dt d => simp [Roadmap.set_timeline] at h
    | str s =>
      cases hp : parseYMD s with
      | none => simp [Roadmap.set_timeline, hp] at h
      | some d => exact ⟨s, d, rfl, hp⟩

/-- Witness for C10: the defaulted call fails with a `TypeError` on a
concrete state, and a concrete fault-free call did pass a well-formed
string. -/
theorem C10_default_start_type_fault_witness :
    wRoadmap.set_timeline .MONTHLY (set_timeline_default_start d0) 2 "Arial"
      10 "Black" "lightgrey" = (wRoadmap, [], some Fault.typeError) ∧
    ∃ s d, StartArg.str "2024-01-01" = StartArg.str s ∧
      parseYMD s = some d :=
  ⟨(C10_default_start_type_fault wRoadmap .MONTHLY 2 "Arial" 10 "Black"
      "lightgrey").1 d0,
   (C10_default_start_type_fault wRoadmap .MONTHLY 2 "Arial" 10 "Black"
      "lightgrey").2 (StartArg.str "2024-01-01") rfl⟩

/-- C3: marker layout is split across two operations: `set_timeline`
positions the marker label (leaving the group list untouched, so before
any group layout), `set_footer` positions the marker line and only then
computes the footer's own position (the event list orders the line layout
first), and when the marker flag is off neither operation touches the
marker slot. -/
theorem C3_marker_two_phase (r : Roadmap) (text font : String)
    (font_size : Int) (font_colour : String) :
    (∀ m mode s d n tfont (tfs : Int) tfc tfill,
      r.show_current_date_marker = true → r.marker = some m →
      parseYMD s = some d →
      ∃ m', (r.set_timeline mode (.str s) n tfont tfs tfc tfill).1.marker =
          some m' ∧
        m'.label_x.isSome = true ∧
        (r.set_timeline mode (.str s) n tfont tfs tfc tfill).2.1 =
          [LayoutEvent.timelineLayout, LayoutEvent.markerLabelLayout] ∧
        (r.set_timeline mode (.str s) n tfont tfs tfc tfill).1.groups =
          r.groups) ∧
    (∀ m x ly, r.show_current_date_marker = true → r.marker = some m →
      m.label_x = some x → m.label_y = some ly →
      ∃ m', (r.set_footer text font font_size font_colour).1.marker =
          some m' ∧
        m'.line_x.isSome = true ∧
        (r.set_footer text font font_size font_colour).2.1 =
          [LayoutEvent.markerLineLayout, LayoutEvent.footerLayout] ∧
        (r.set_footer text font font_size font_colour).1.footer.isSome =
          true) ∧
    (r.show_current_date_marker = false →
      (∀ mode st n tfont (tfs : Int) tfc tfill,
        (r.set_timeline mode st n tfont tfs tfc tfill).1.marker = r.marker) ∧
      (r.set_footer text font font_size font_colour).1.marker = r.marker ∧
      (r.set_footer text font font_size font_colour).2.1 =
        [LayoutEvent.footerLayout]) := by
  refine ⟨?_, ?_, ?_⟩
  · intro m mode s d n tfont tfs tfc tfill hflag hm hp
    rcases hT : Timeline.set_draw_position
      { mode := mode, start := d, number_of_items := n, font := tfont,
        font_size := tfs, font_colour := tfc, fill_colour := tfill }
      r.painter with ⟨tl, p'⟩
    exact ⟨m.set_label_draw_position p' tl r.today,
      by simp [Roadmap.set_timeline, hp, hT, hflag, hm],
      by simp [Marker.set_label_draw_position],
      by simp [Roadmap.set_timeline, hp, hT, hflag, hm],
      by simp [Roadmap.set_timeline, hp, hT, hflag, hm]⟩
  · intro m x ly hflag hm hlx hly
    rcases hF : Footer.set_draw_position
      { text := text, font := font, font_size := font_size,
        font_colour := font_colour } r.painter r.last_y_pos with ⟨f, p'⟩
    refine ⟨(m.set_line_draw_position r.painter).1, ?_, ?_, ?_, ?_⟩
    · simp [Roadmap.set_footer, hflag, hm, Marker.set_line_draw_position,
        hlx, hly, hF]
    · simp [Marker.set_line_draw_position, hlx, hly]
    · simp [Roadmap.set_footer, hflag, hm, Marker.set_line_draw_position,
        hlx, hly, hF]
    · simp [Roadmap.set_footer, hflag, hm, Marker.set_line_draw_position,
        hlx, hly, hF]
  · intro hflag
    refine ⟨?_, ?_, ?_⟩
    · intro mode st n tfont tfs tfc tfill
      cases st with
      | dt d => simp [Roadmap.set_timeline]
      | str s =>
        cases hp : parseYMD s with
        | none => simp [Roadmap.set_timeline, hp]
        | some d =>
          rcases hT : Timeline.set_draw_position
            { mode := mode, start := d, number_of_items := n, font := tfont,
              font_size := tfs, font_colour := tfc, fill_colour := tfill }
            r.painter with ⟨tl, p'⟩
          simp [Roadmap.set_timeline, hp, hT, hflag]
    · rcases hF : Footer.set_draw_position
        { text := text, font := font, font_size := font_size,
          font_colour := font_colour } r.painter r.last_y_pos with ⟨f, p'⟩
      simp [Roadmap.set_footer, hflag, hF]
    · rcases hF : Footer.set_draw_position
        { text := text, font := font, font_size := font_size,
          font_colour := font_colour } r.painter r.last_y_pos with ⟨f, p'⟩
      simp [Roadmap.set_footer, hflag, hF]

/-- The concrete roadmap with the marker flag off. -/
def wRoadmapFlagOff : Roadmap :=
  { wRoadmap with show_current_date_marker := false }

/-- Witness for C3 at concrete states: label phase on `set_timeline`, line
phase on `set_footer`, and marker untouched with the flag off. -/
theorem C3_marker_two_phase_witness :
    (∃ m', (wRoadmap.set_timeline .MONTHLY (.str "2024-01-01") 2 "Arial" 10
        "Black" "lightgrey").1.marker = some m' ∧
      m'.label_x.isSome = true ∧
      (wRoadmap.set_timeline .MONTHLY (.str "2024-01-01") 2 "Arial" 10
        "Black" "lightgrey").2.1 =
        [LayoutEvent.timelineLayout, LayoutEvent.markerLabelLayout] ∧
      (wRoadmap.set_timeline .MONTHLY (.str "2024-01-01") 2 "Arial" 10
        "Black" "lightgrey").1.groups = wRoadmap.groups) ∧
    (∃ m', (wRoadmap.set_footer "fin" "Arial" 18 "Black").1.marker =
        some m' ∧
      m'.line_x.isSome = true ∧
      (wRoadmap.set_footer "fin" "Arial" 18 "Black").2.1 =
        [LayoutEvent.markerLineLayout, LayoutEvent.footerLayout] ∧
      (wRoadmap.set_footer "fin" "Arial" 18 "Black").1.footer.isSome =
        true) ∧
    ((wRoadmapFlagOff.set_timeline .MONTHLY (.str "2024-01-01") 2 "Arial" 10
        "Black" "lightgrey").1.marker = wRoadmapFlagOff.marker ∧
     (wRoadmapFlagOff.set_footer "fin" "Arial" 18 "Black").1.marker =
        wRoadmapFlagOff.marker ∧
     (wRoadmapFlagOff.set_footer "fin" "Arial" 18 "Black").2.1 =
        [LayoutEvent.footerLayout]) :=
  ⟨(C3_marker_two_phase wRoadmap "fin" "Arial" 18 "Black").1 wMarker
      .MONTHLY "2024-01-01" ⟨2024, 1, 1⟩ 2 "Arial" 10 "Black" "lightgrey"
      rfl rfl rfl,
   (C3_marker_two_phase wRoadmap "fin" "Arial" 18 "Black").2.1 wMarker
      120 48 rfl rfl rfl rfl,
   ⟨((C3_marker_two_phase wRoadmapFlagOff "fin" "Arial" 18 "Black").2.2
        rfl).1 .MONTHLY (.str "2024-01-01") 2 "Arial" 10 "Black" "lightgrey",
    ((C3_marker_two_phase wRoadmapFlagOff "fin" "Arial" 18 "Black").2.2
        rfl).2.1,
    ((C3_marker_two_phase wRoadmapFlagOff "fin" "Arial" 18 "Black").2.2
        rfl).2.2⟩⟩

/-- Every call either leaves the flag and the presence of the marker as
they were, or establishes both the flag and a present marker (only
`set_marker` does the latter). -/
theorem step_flag_marker {ε : Type} (r : Roadmap) (op : Op ε) :
    ((Roadmap.step r op).1.show_current_date_marker =
        r.show_current_date_marker ∧
     (Roadmap.step r op).1.marker.isSome = r.marker.isSome) ∨
    ((Roadmap.step r op).1.show_current_date_marker = true ∧
     (Roadmap.step r op).1.marker.isSome = true) := by
  cases op with
  | set_marker a b c d e f =>
    right
    simp [Roadmap.step, Roadmap.set_marker]
  | set_title t f s c =>
    left
    simp [Roadmap.step, Roadmap.set_title, Title.set_draw_position]
  | set_timeline mode st n f s c fill =>
    left
    cases st with
    | dt d => simp [Roadmap.step, Roadmap.set_timeline]
    | str sv =>
      cases hp : parseYMD sv with
      | none => simp [Roadmap.step, Roadmap.set_timeline, hp]
      | some d =>
        rcases hT : Timeline.set_draw_position
          { mode := mode, start := d, number_of_items := n, font := f,
            font_size := s, font_colour := c, fill_colour := fill }
          r.painter with ⟨tl, p'⟩
        cases hflag : r.show_current_date_marker with
        | false => simp [Roadmap.step, Roadmap.set_timeline, hp, hT, hflag]
        | true =>
          cases hm : r.marker with
          | none =>
            simp [Roadmap.step, Roadmap.set_timeline, hp, hT, hflag, hm]
          | some m =>
            simp [Roadmap.step, Roadmap.set_timeline, hp, hT, hflag, hm]
  | add_group t f s c fill al body =>
    left
    rcases hb : body (Group.init t f s c fill al) with ⟨g1, exc⟩
    cases hm : r.timeline with
    | none => simp [Roadmap.step, Roadmap.add_group, hb, hm]
    | some tl =>
      rcases hG : g1.set_draw_position r.painter tl with ⟨g2, p2⟩
      simp [Roadmap.step, Roadmap.add_group, hb, hm, hG]
  | set_footer t f s c =>
    left
    cases hflag : r.show_current_date_marker with
    | false =>
      rcases hF : Footer.set_draw_position
        { text := t, font := f, font_size := s, font_colour := c }
        r.painter r.last_y_pos with ⟨fo, p'⟩
      simp [Roadmap.step, Roadmap.set_footer, hflag, hF]
    | true =>
      cases hm : r.marker with
      | none => simp [Roadmap.step, Roadmap.set_footer, hflag, hm]
      | some m =>
        rcases hL : m.set_line_draw_position r.painter with ⟨m', e⟩
        cases e with
        | none =>
          rcases hF : Footer.set_draw_position
            { text := t, font := f, font_size := s, font_colour := c }
            r.painter r.last_y_pos with ⟨fo, p'⟩
          simp [Roadmap.step, Roadmap.set_footer, hflag, hm, hL, hF]
        | some fa => simp [Roadmap.step, Roadmap.set_footer, hflag, hm, hL]
  | draw => left; simp [Roadmap.step]
  | print_roadmap area => left; simp [Roadmap.step]
  | save => left; simp [Roadmap.step, Roadmap.save]

/-- Running any call sequence preserves the property that the flag implies
a present marker. -/
theorem run_flag_marker {ε : Type} :
    ∀ (ops : List (Op ε)) (r : Roadmap),
      (r.show_current_date_marker = true → r.marker.isSome = true) →
      ((Roadmap.run r ops).1.show_current_date_marker = true →
        (Roadmap.run r ops).1.marker.isSome = true) := by
  intro ops
  induction ops with
  | nil => intro r h; simpa [Roadmap.run] using h
  | cons op ops ih =>
    intro r h
    have hstep := step_flag_marker r op
    rcases hs : Roadmap.step (ε := ε) r op with ⟨r', e⟩
    rw [hs] at hstep
    have h' : r'.show_current_date_marker = true → r'.marker.isSome = true := by
      rcases hstep with ⟨h1, h2⟩ | ⟨h1, h2⟩
      · intro hf
        exact h2.trans (h (h1.symm.trans hf))
      · intro _
        exact h2
    cases e with
    | none => simpa [Roadmap.run, hs] using ih r' h'
    | some fa => simpa [Roadmap.run, hs] using h'

/-- C6 counterexample: the marker-enabled flag is a constructor parameter,
so a roadmap can be built with the flag already true while no Marker object
exists — the flag was not set via `set_marker` and it desynchronizes from
the marker's existence at construction. -/
theorem C6_counterexample_flag_at_construction :
    (Roadmap.init 1200 600 true d0).show_current_date_marker = true ∧
    (Roadmap.init 1200 600 true d0).marker = none :=
  ⟨rfl, rfl⟩

/-- C6 amended: the flag defaults to false, but it is a constructor
parameter, so construction itself can also set it true (without a marker).
Under the default construction the original claim holds: the flag starts
false with no marker, `set_marker` sets the flag and installs a Marker,
and in every state reachable by operations from a default-flag
construction the flag implies the marker exists. -/
theorem C6_amended_flag_marker_sync :
    (∀ w h d, (Roadmap.init w h false d).show_current_date_marker = false ∧
      (Roadmap.init w h false d).marker = none) ∧
    (∀ (r : Roadmap) a b (c : Int) dd (e : Int) f,
      (r.set_marker a b c dd e f).show_current_date_marker = true ∧
      ((r.set_marker a b c dd e f).marker).isSome = true) ∧
    (∀ (ε : Type) (w h : Int) (d : Date) (ops : List (Op ε)),
      (Roadmap.run (Roadmap.init w h false d)
          ops).1.show_current_date_marker = true →
      (Roadmap.run (Roadmap.init w h false d) ops).1.marker.isSome =
        true) := by
  refine ⟨fun w h d => ⟨rfl, rfl⟩,
    fun r a b c dd e f => ⟨rfl, ?_⟩, fun ε w h d ops => ?_⟩
  · simp [Roadmap.set_marker]
  · exact run_flag_marker ops (Roadmap.init w h false d) (by intro h0; cases h0)

/-- Witness for C6 amended: after the single call `set_marker` from a
default construction, the reachable state has a marker present. -/
theorem C6_amended_flag_marker_sync_witness :
    (Roadmap.run (ε := Unit) (Roadmap.init 1200 600 false d0)
      [Op.set_marker "Arial" "Black" 10 "Black" 2
        "dashed"]).1.marker.isSome = true :=
  C6_amended_flag_marker_sync.2.2 Unit 1200 600 d0
    [Op.set_marker "Arial" "Black" 10 "Black" 2 "dashed"] rfl

/-- C7: the diagnostic dump of a roadmap with title, timeline and footer
set and zero groups, with print area "all", is exactly the title line, the
timeline section lines (the header plus one line per timeline item) and
the footer line, with no fault; no line of it belongs to the groups
section (no group, task, milestone or parallel-task line). -/
theorem C7_empty_roadmap_dump (r : Roadmap) (t : Title) (tl : Timeline)
    (f : Footer) (ht : r.title = some t) (htl : r.timeline = some tl)
    (hf : r.footer = some f) (hg : r.groups = []) :
    r.print_roadmap "all" =
      (PrintLine.titleLine t.text :: PrintLine.timelineHeader ::
        (tl.timeline_items.map
          (fun it => PrintLine.timelineItemLine it.text) ++
         [PrintLine.footerLine f.text]), none) ∧
    ∀ l ∈ (r.print_roadmap "all").1, l.isGroupSection = false := by
  have h1 : r.print_roadmap "all" =
      (PrintLine.titleLine t.text :: PrintLine.timelineHeader ::
        (tl.timeline_items.map
          (fun it => PrintLine.timelineItemLine it.text) ++
         [PrintLine.footerLine f.text]), none) := by
    simp [Roadmap.print_roadmap, ht, htl, hf, hg]
  refine ⟨h1, ?_⟩
  rw [h1]
  intro l hl
  simp only [List.mem_cons, List.mem_append, List.mem_map,
    List.mem_singleton] at hl
  rcases hl with h | h | ⟨it, _, h⟩ | h | h
  · rw [h]; rfl
  · rw [h]; rfl
  · rw [← h]; rfl
  · rw [h]; rfl
  · simp at h

/-- The concrete roadmap with the group list emptied. -/
def wRoadmapNoGroups : Roadmap := { wRoadmap with groups := [] }

/-- Witness for C7 at the concrete roadmap with zero groups. -/
theorem C7_empty_roadmap_dump_witness :
    wRoadmapNoGroups.print_roadmap "all" =
      (PrintLine.titleLine "Launch Plan" :: PrintLine.timelineHeader ::
        ([PrintLine.timelineItemLine "2024-1-1",
          PrintLine.timelineItemLine "2024-2-1"] ++
         [PrintLine.footerLine "Generated"]), none) ∧
    ∀ l ∈ (wRoadmapNoGroups.print_roadmap "all").1,
      l.isGroupSection = false :=
  C7_empty_roadmap_dump wRoadmapNoGroups wTitle wTimeline wFooter
    rfl rfl rfl rfl

/-- The canvas-level attributes of a roadmap's painter: width, height and
background colour. -/
def canvas (r : Roadmap) : Int × Int × String :=
  (r.painter.width, r.painter.height, r.painter.background_colour)

/-- C8: the canvas width, height and background colour are fixed at
construction (the painter is created from the constructor's width and
height with a white background) and no public call — set_marker,
set_title, set_timeline, add_group, set_footer, draw, print_roadmap, or
save — changes any of the three, whether the call succeeds or faults. -/
theorem C8_canvas_set_once_then_immutable :
    (∀ w h b d, canvas (Roadmap.init w h b d) = (w, h, "White")) ∧
    (∀ (ε : Type) (r : Roadmap) (op : Op ε),
      canvas (Roadmap.step r op).1 = canvas r) := by
  refine ⟨fun w h b d => rfl, fun ε r op => ?_⟩
  cases op with
  | set_marker a b c d e f => simp [canvas, Roadmap.step, Roadmap.set_marker]
  | set_title t f s c =>
    simp [canvas, Roadmap.step, Roadmap.set_title, Title.set_draw_position]
  | set_timeline mode st n f s c fill =>
    cases st with
    | dt d => simp [canvas, Roadmap.step, Roadmap.set_timeline]
    | str sv =>
      cases hp : parseYMD sv with
      | none => simp [canvas, Roadmap.step, Roadmap.set_timeline, hp]
      | some d =>
        cases hflag : r.show_current_date_marker with
        | false =>
          simp [canvas, Roadmap.step, Roadmap.set_timeline, hp, hflag,
            Timeline.set_draw_position]
        | true =>
          cases hm : r.marker with
          | none =>
            simp [canvas, Roadmap.step, Roadmap.set_timeline, hp, hflag, hm,
              Timeline.set_draw_position]
          | some m =>
            simp [canvas, Roadmap.step, Roadmap.set_timeline, hp, hflag, hm,
              Timeline.set_draw_position]
  | add_group t f s c fill al body =>
    rcases hb : body (Group.init t f s c fill al) with ⟨g1, exc⟩
    cases hm : r.timeline with
    | none => simp [canvas, Roadmap.step, Roadmap.add_group, hb, hm]
    | some tl =>
      rcases hL : Task.layoutList g1.tasks tl
        (r.painter.last_drawn_y + group_header_height) with ⟨ts, ye⟩
      simp [canvas, Roadmap.step, Roadmap.add_group, hb, hm,
        Group.set_draw_position, hL]
  | set_footer t f s c =>
    cases hflag : r.show_current_date_marker with
    | false =>
      simp [canvas, Roadmap.step, Roadmap.set_footer, hflag,
        Footer.set_draw_position]
    | true =>
      cases hm : r.marker with
      | none => simp [canvas, Roadmap.step, Roadmap.set_footer, hflag, hm]
      | some m =>
        rcases hL : m.set_line_draw_position r.painter with ⟨m', e⟩
        cases e with
        | none =>
          simp [canvas, Roadmap.step, Roadmap.set_footer, hflag, hm, hL,
            Footer.set_draw_position]
        | some fa =>
          simp [canvas, Roadmap.step, Roadmap.set_footer, hflag, hm, hL]
  | draw => simp [canvas, Roadmap.step]
  | print_roadmap area => simp [canvas, Roadmap.step]
  | save => simp [canvas, Roadmap.step, Roadmap.save]

end Roadmapper
